import Mathlib

/-!
Shallow embedding of the gem-ledger core of the 5minutessurvey web
application: the relational store (schema.ts), the storage facade
(storage.ts, class DatabaseStorage) and the request handlers
(routes.ts).  Database tables become lists of records, serial ids become
explicit counters, timestamps become a natural number supplied to each
operation, and the jsonb payloads (survey questions, survey answers,
security-log details) are carried as opaque strings.  Every multi-step
handler is translated as the same sequence of storage calls the source
performs, threading the store explicitly.
-/

/-- One row of the users table.  Column defaults from schema.ts:
gemBalance 0, isVerified false, status "active", isAdmin false. -/
structure User where
  id : String
  email : String
  firstName : Option String
  lastName : Option String
  profileImageUrl : Option String
  gemBalance : Int
  isVerified : Bool
  verificationCode : Option String
  status : String
  isAdmin : Bool
  createdAt : Nat
  updatedAt : Nat
deriving Repr, DecidableEq

/-- One row of the surveys table; questions is an opaque jsonb payload. -/
structure Survey where
  id : Nat
  title : String
  description : String
  duration : Int
  reward : Int
  questions : String
  isActive : Bool
  participantCount : Int
  createdAt : Nat
deriving Repr, DecidableEq

/-- One row of the survey_responses table; responses is an opaque jsonb
payload. -/
structure SurveyResponse where
  id : Nat
  userId : String
  surveyId : Nat
  responses : String
  completedAt : Nat
  gemAwarded : Int
deriving Repr, DecidableEq

/-- One row of the transactions table (the append-only ledger). -/
structure Transaction where
  id : Nat
  userId : String
  type : String
  amount : Int
  description : String
  surveyId : Option Nat
  withdrawalId : Option Nat
  offerwallProvider : Option String
  offerwallOfferId : Option String
  createdAt : Nat
deriving Repr, DecidableEq

/-- One row of the withdrawal_requests table.  The status column is a
varchar holding "pending" (the default), "approved" or "rejected". -/
structure WithdrawalRequest where
  id : Nat
  userId : String
  amount : Int
  walletAddress : String
  status : String
  adminNotes : Option String
  requestedAt : Nat
  processedAt : Option Nat
  processedBy : Option String
deriving Repr, DecidableEq

/-- One row of the security_logs table; details is an opaque jsonb
payload. -/
structure SecurityLog where
  id : Nat
  userId : Option String
  action : String
  details : String
  ipAddress : Option String
  userAgent : Option String
  createdAt : Nat
deriving Repr, DecidableEq

/-- The whole relational store, plus the serial-id counters of the four
tables the application inserts into. -/
structure Store where
  users : List User
  surveys : List Survey
  surveyResponses : List SurveyResponse
  transactions : List Transaction
  withdrawalRequests : List WithdrawalRequest
  securityLogs : List SecurityLog
  nextResponseId : Nat
  nextTransactionId : Nat
  nextWithdrawalId : Nat
  nextLogId : Nat
deriving Repr, DecidableEq

/-- Payload accepted by upsertUser (upsertUserSchema: id, email,
firstName, lastName, profileImageUrl). -/
structure UpsertUser where
  id : String
  email : String
  firstName : Option String
  lastName : Option String
  profileImageUrl : Option String
deriving Repr, DecidableEq

/-- Payload accepted by the survey-completion route
(insertSurveyResponseSchema: surveyId, responses). -/
structure InsertSurveyResponse where
  surveyId : Nat
  responses : String
deriving Repr, DecidableEq

/-- Payload accepted by the withdrawal route
(insertWithdrawalRequestSchema: amount, walletAddress). -/
structure InsertWithdrawalRequest where
  amount : Int
  walletAddress : String
deriving Repr, DecidableEq

/-- The admin decision enum of updateWithdrawalStatusSchema:
z.enum(["approved", "rejected"]). -/
inductive Decision where
  | approved
  | rejected
deriving Repr, DecidableEq

/-- The status string written for a decision. -/
def Decision.statusString : Decision → String
  | .approved => "approved"
  | .rejected => "rejected"

/-- Payload accepted by the admin adjudication route
(updateWithdrawalStatusSchema: status, optional adminNotes). -/
structure UpdateWithdrawalStatus where
  status : Decision
  adminNotes : Option String
deriving Repr, DecidableEq

/-- Fields of a createTransaction call (storage.ts). -/
structure InsertTransaction where
  userId : String
  type : String
  amount : Int
  description : String
  surveyId : Option Nat
  withdrawalId : Option Nat
  offerwallProvider : Option String
  offerwallOfferId : Option String
deriving Repr, DecidableEq

/-- Fields of a createSecurityLog call (storage.ts). -/
structure InsertSecurityLog where
  userId : Option String
  action : String
  details : String
  ipAddress : Option String
  userAgent : Option String
deriving Repr, DecidableEq

namespace DatabaseStorage

/-- The hardcoded operator address compared against in upsertUser. -/
def operatorEmail : String := "5minutessurvey@gmail.com"

/-- getUser: select from users where id = id, first row or absent. -/
def getUser (s : Store) (id : String) : Option User :=
  s.users.find? (fun u => u.id == id)

/-- upsertUser: insert with isAdmin computed from the operator email,
on conflict on the id column update the identity fields and updatedAt.
The users.email column carries a unique constraint (schema.ts), which
the conflict clause does not arbitrate: an insert or an update that
would duplicate the email of another row raises, leaving the store
unchanged.  The error case is the raised unique violation. -/
def upsertUser (s : Store) (d : UpsertUser) (now : Nat) :
    Except String User × Store :=
  if s.users.any (fun u => u.id == d.id) then
    -- conflict on the primary key: ON CONFLICT (id) DO UPDATE
    if s.users.any (fun u => u.id != d.id && u.email == d.email) then
      (.error "duplicate key value violates unique constraint users_email_unique", s)
    else
      let g : User → User := fun u =>
        if u.id == d.id then
          { u with email := d.email, firstName := d.firstName,
                   lastName := d.lastName,
                   profileImageUrl := d.profileImageUrl, updatedAt := now }
        else u
      let newUsers := s.users.map g
      match newUsers.find? (fun u => u.id == d.id) with
      | some u => (.ok u, { s with users := newUsers })
      | none => (.error "update returned no row", { s with users := newUsers })
  else
    if s.users.any (fun u => u.email == d.email) then
      (.error "duplicate key value violates unique constraint users_email_unique", s)
    else
      let u : User :=
        { id := d.id, email := d.email, firstName := d.firstName,
          lastName := d.lastName, profileImageUrl := d.profileImageUrl,
          gemBalance := 0, isVerified := false, verificationCode := none,
          status := "active", isAdmin := d.email == operatorEmail,
          createdAt := now, updatedAt := now }
      (.ok u, { s with users := s.users ++ [u] })

/-- updateUserGemBalance: overwrite gemBalance to the given absolute
value and bump updatedAt on the row with the given id. -/
def updateUserGemBalance (s : Store) (userId : String) (amount : Int)
    (now : Nat) : Store :=
  { s with users := s.users.map (fun u =>
      if u.id == userId then { u with gemBalance := amount, updatedAt := now }
      else u) }

/-- getSurvey: select from surveys where id = id, first row or absent. -/
def getSurvey (s : Store) (id : Nat) : Option Survey :=
  s.surveys.find? (fun sv => sv.id == id)

/-- createSurveyResponse: insert the response row, then re-read the user
and overwrite their balance as old + gemAwarded (skipped when the user
row is absent), then re-read the survey and overwrite participantCount
as old + 1 (skipped when the survey row is absent).  Three sequential
writes, exactly as in storage.ts. -/
def createSurveyResponse (s : Store) (userId : String)
    (resp : InsertSurveyResponse) (gemAwarded : Int) (now : Nat) :
    SurveyResponse × Store :=
  let row : SurveyResponse :=
    { id := s.nextResponseId, userId := userId, surveyId := resp.surveyId,
      responses := resp.responses, completedAt := now,
      gemAwarded := gemAwarded }
  let s1 : Store :=
    { s with surveyResponses := s.surveyResponses ++ [row],
             nextResponseId := s.nextResponseId + 1 }
  let s2 : Store :=
    match getUser s1 userId with
    | some u => updateUserGemBalance s1 userId (u.gemBalance + gemAwarded) now
    | none => s1
  let s3 : Store :=
    match getSurvey s2 resp.surveyId with
    | some sv =>
        { s2 with surveys := s2.surveys.map (fun x =>
            if x.id == resp.surveyId then
              { x with participantCount := sv.participantCount + 1 }
            else x) }
    | none => s2
  (row, s3)

/-- getUserSurveyResponses: all responses of the user.  The source
orders them newest-completed first; the handlers only test membership,
so the order of the returned list is immaterial here. -/
def getUserSurveyResponses (s : Store) (userId : String) :
    List SurveyResponse :=
  s.surveyResponses.filter (fun r => r.userId == userId)

/-- createTransaction: insert one ledger row and return it. -/
def createTransaction (s : Store) (t : InsertTransaction) (now : Nat) :
    Transaction × Store :=
  let row : Transaction :=
    { id := s.nextTransactionId, userId := t.userId, type := t.type,
      amount := t.amount, description := t.description,
      surveyId := t.surveyId, withdrawalId := t.withdrawalId,
      offerwallProvider := t.offerwallProvider,
      offerwallOfferId := t.offerwallOfferId, createdAt := now }
  (row, { s with transactions := s.transactions ++ [row],
                 nextTransactionId := s.nextTransactionId + 1 })

/-- createWithdrawalRequest: insert one row; the status column takes its
default "pending", the processed fields start absent. -/
def createWithdrawalRequest (s : Store) (userId : String)
    (req : InsertWithdrawalRequest) (now : Nat) :
    WithdrawalRequest × Store :=
  let row : WithdrawalRequest :=
    { id := s.nextWithdrawalId, userId := userId, amount := req.amount,
      walletAddress := req.walletAddress, status := "pending",
      adminNotes := none, requestedAt := now, processedAt := none,
      processedBy := none }
  (row, { s with withdrawalRequests := s.withdrawalRequests ++ [row],
                 nextWithdrawalId := s.nextWithdrawalId + 1 })

/-- getPendingWithdrawals: all rows with status pending (the source
orders them newest-request first; only the selection matters here). -/
def getPendingWithdrawals (s : Store) : List WithdrawalRequest :=
  s.withdrawalRequests.filter (fun w => w.status == "pending")

/-- The row rewrite performed by updateWithdrawalStatus: sets the
decided status, the notes when supplied (drizzle skips an absent
optional field), processedBy and processedAt. -/
def applyWithdrawalUpdate (upd : UpdateWithdrawalStatus)
    (processedBy : String) (now : Nat) (w : WithdrawalRequest) :
    WithdrawalRequest :=
  { w with status := upd.status.statusString,
           adminNotes := match upd.adminNotes with
                         | some n => some n
                         | none => w.adminNotes,
           processedBy := some processedBy,
           processedAt := some now }

/-- updateWithdrawalStatus: update the row with the given id (no status
precondition of any kind) and return the updated row, or absent when no
row matched. -/
def updateWithdrawalStatus (s : Store) (id : Nat)
    (upd : UpdateWithdrawalStatus) (processedBy : String) (now : Nat) :
    Option WithdrawalRequest × Store :=
  let f := applyWithdrawalUpdate upd processedBy now
  (((s.withdrawalRequests.filter (fun w => w.id == id)).map f).head?,
   { s with withdrawalRequests := s.withdrawalRequests.map (fun w =>
       if w.id == id then f w else w) })

/-- getUserPendingWithdrawal: the row of the user with status pending, if
any. -/
def getUserPendingWithdrawal (s : Store) (userId : String) :
    Option WithdrawalRequest :=
  s.withdrawalRequests.find? (fun w =>
    w.userId == userId && w.status == "pending")

/-- createSecurityLog: insert one audit row and return it. -/
def createSecurityLog (s : Store) (l : InsertSecurityLog) (now : Nat) :
    SecurityLog × Store :=
  let row : SecurityLog :=
    { id := s.nextLogId, userId := l.userId, action := l.action,
      details := l.details, ipAddress := l.ipAddress,
      userAgent := l.userAgent, createdAt := now }
  (row, { s with securityLogs := s.securityLogs ++ [row],
                 nextLogId := s.nextLogId + 1 })

/-- The aggregate returned by getUserStats.  The source renders
totalPayouts as the dollar string (sum * 0.05).toFixed(2); with integer
gem amounts that value is exactly 5 * sum cents, which is how it is
carried here. -/
structure UserStats where
  totalUsers : Nat
  pendingWithdrawals : Nat
  totalPayoutsCents : Int
deriving Repr, DecidableEq

/-- getUserStats: count all users, count pending withdrawals, and sum
the amounts of approved withdrawals with a left fold (the
reduce), scaled by the fixed 0.05 dollars-per-gem factor (5 cents). -/
def getUserStats (s : Store) : UserStats :=
  let approvedWithdrawals :=
    s.withdrawalRequests.filter (fun w => w.status == "approved")
  let totalPayouts := approvedWithdrawals.foldl (fun sum w => sum + w.amount) 0
  { totalUsers := s.users.length,
    pendingWithdrawals :=
      (s.withdrawalRequests.filter (fun w => w.status == "pending")).length,
    totalPayoutsCents := totalPayouts * 5 }

end DatabaseStorage

/-- The error responses a handler can emit (routes.ts): a not-found
check answered with res.status(404), a business-rule check answered
with res.status(400), and the catch-all answered with
res.status(500). -/
inductive HandlerError where
  | notFound (message : String)
  | badRequest (message : String)
  | internal (message : String)
deriving Repr, DecidableEq

/-- The HTTP status code carried by each handler error. -/
def HandlerError.statusCode : HandlerError → Nat
  | .notFound _ => 404
  | .badRequest _ => 400
  | .internal _ => 500

open DatabaseStorage in
/-- The POST /api/surveys/:id/complete handler (routes.ts).  Looks up
the survey (404 when absent), scans the responses of the caller for a prior
completion (400 when found), then creates the response with gemAwarded
copied from the reward of the survey, appends a survey_reward transaction
and a security log.  The request ip and user-agent feed the log
only. -/
def completeSurveyHandler (s : Store) (userId : String) (surveyId : Nat)
    (responses : String) (ip : Option String) (ua : Option String)
    (now : Nat) : Except HandlerError (SurveyResponse × Int) × Store :=
  match getSurvey s surveyId with
  | none => (.error (.notFound "Survey not found"), s)
  | some survey =>
    let existingResponses := getUserSurveyResponses s userId
    let alreadyCompleted := existingResponses.any (fun r => r.surveyId == surveyId)
    if alreadyCompleted then
      (.error (.badRequest "Survey already completed"), s)
    else
      let (response, s1) := createSurveyResponse s userId
        { surveyId := surveyId, responses := responses } survey.reward now
      let (_, s2) := createTransaction s1
        { userId := userId, type := "survey_reward", amount := survey.reward,
          description := "Survey completed: " ++ survey.title,
          surveyId := some surveyId, withdrawalId := none,
          offerwallProvider := none, offerwallOfferId := none } now
      let (_, s3) := createSecurityLog s2
        { userId := some userId, action := "survey_completed",
          details := "surveyId, reward", ipAddress := ip, userAgent := ua } now
      (.ok (response, survey.reward), s3)

open DatabaseStorage in
/-- The POST /api/withdrawals handler (routes.ts).  The user record is
the req.user of the session, whose gemBalance the handler reads directly.
Pre-checks in source order: an existing pending withdrawal (400),
insufficient balance (400), amount below the fixed minimum of 100
(400).  On success: insert the pending row, append a negative
withdrawal_request transaction, overwrite the balance to
balance - amount, append a security log. -/
def requestWithdrawalHandler (s : Store) (user : User)
    (body : InsertWithdrawalRequest) (ip : Option String)
    (ua : Option String) (now : Nat) :
    Except HandlerError WithdrawalRequest × Store :=
  match getUserPendingWithdrawal s user.id with
  | some _ => (.error (.badRequest "You already have a pending withdrawal request"), s)
  | none =>
    if user.gemBalance < body.amount then
      (.error (.badRequest "Insufficient gem balance"), s)
    else if body.amount < 100 then
      (.error (.badRequest "Minimum withdrawal amount is 100 gems"), s)
    else
      let (withdrawal, s1) := createWithdrawalRequest s user.id body now
      let (_, s2) := createTransaction s1
        { userId := user.id, type := "withdrawal_request",
          amount := -body.amount,
          description := "Withdrawal requested: " ++ toString body.amount ++ " gems",
          surveyId := none, withdrawalId := some withdrawal.id,
          offerwallProvider := none, offerwallOfferId := none } now
      let s3 := updateUserGemBalance s2 user.id (user.gemBalance - body.amount) now
      let (_, s4) := createSecurityLog s3
        { userId := some user.id, action := "withdrawal_requested",
          details := "amount, walletAddress", ipAddress := ip,
          userAgent := ua } now
      (.ok withdrawal, s4)

open DatabaseStorage in
/-- The PATCH /api/admin/withdrawals/:id handler (routes.ts).  It calls
updateWithdrawalStatus unconditionally; when no row matched, the source
dereferences the absent result, and the thrown error is answered by the
catch-all with res.status(500) — the no-row update left the store as it
was.  Otherwise it appends a transaction typed after the decision
(amount 0 for approval, the amount of the withdrawal for rejection), credits
the amount back to the user on rejection (re-reading the current
balance, skipped when the user row is absent), and appends a security
log attributed to the admin. -/
def adminUpdateWithdrawalHandler (s : Store) (adminId : String)
    (withdrawalId : Nat) (body : UpdateWithdrawalStatus)
    (ip : Option String) (ua : Option String) (now : Nat) :
    Except HandlerError WithdrawalRequest × Store :=
  let (found, s1) := updateWithdrawalStatus s withdrawalId body adminId now
  match found with
  | none => (.error (.internal "Failed to update withdrawal"), s1)
  | some withdrawal =>
    let (_, s2) := createTransaction s1
      { userId := withdrawal.userId,
        type := "withdrawal_" ++ body.status.statusString,
        amount := match body.status with
                  | .approved => 0
                  | .rejected => withdrawal.amount,
        description := "Withdrawal " ++ body.status.statusString ++ ": "
          ++ toString withdrawal.amount ++ " gems",
        surveyId := none, withdrawalId := some withdrawal.id,
        offerwallProvider := none, offerwallOfferId := none } now
    let s3 :=
      match body.status with
      | .rejected =>
        match getUser s2 withdrawal.userId with
        | some user =>
            updateUserGemBalance s2 withdrawal.userId
              (user.gemBalance + withdrawal.amount) now
        | none => s2
      | .approved => s2
    let (_, s4) := createSecurityLog s3
      { userId := some adminId,
        action := "withdrawal_" ++ body.status.statusString,
        details := "withdrawalId, amount, userId, notes", ipAddress := ip,
        userAgent := ua } now
    (.ok withdrawal, s4)

/-! ### Concrete example data, used to instantiate the theorems below -/

/-- A regular signed-in user holding 500 gems. -/
def exampleUser : User :=
  { id := "u1", email := "u1@example.com", firstName := some "Ada",
    lastName := none, profileImageUrl := none, gemBalance := 500,
    isVerified := false, verificationCode := none, status := "active",
    isAdmin := false, createdAt := 0, updatedAt := 0 }

/-- An active survey rewarding 50 gems. -/
def exampleSurvey : Survey :=
  { id := 1, title := "Consumer habits", description := "A short survey",
    duration := 5, reward := 50, questions := "q1", isActive := true,
    participantCount := 3, createdAt := 0 }

/-- A pending withdrawal of 200 gems by the example user. -/
def exampleWithdrawal : WithdrawalRequest :=
  { id := 1, userId := "u1", amount := 200, walletAddress := "addr1",
    status := "pending", adminNotes := none, requestedAt := 1,
    processedAt := none, processedBy := none }

/-- A store holding the example user and survey and nothing else. -/
def exampleStore : Store :=
  { users := [exampleUser], surveys := [exampleSurvey],
    surveyResponses := [], transactions := [], withdrawalRequests := [],
    securityLogs := [], nextResponseId := 1, nextTransactionId := 1,
    nextWithdrawalId := 2, nextLogId := 1 }

/-! ### List lemmas used to read off the effect of the map-based updates -/

theorem filter_singleton_find? {α : Type} {p : α → Bool} {a : α} :
    ∀ {l : List α}, l.filter p = [a] → l.find? p = some a := by
  intro l
  induction l with
  | nil => intro h; simp at h
  | cons x xs ih =>
    intro h
    cases hpx : p x with
    | true =>
      rw [List.filter_cons_of_pos hpx] at h
      injection h with h1 h2
      rw [List.find?_cons_of_pos _ hpx, h1]
    | false =>
      rw [List.filter_cons_of_neg (by simp [hpx])] at h
      rw [List.find?_cons_of_neg _ (by simp [hpx])]
      exact ih h

theorem filter_update_of_filter_nil {α : Type} {p : α → Bool} {f : α → α} :
    ∀ {l : List α}, l.filter p = [] →
      (l.map (fun x => if p x then f x else x)).filter p = [] := by
  intro l
  induction l with
  | nil => intro h; simp
  | cons x xs ih =>
    intro h
    cases hpx : p x with
    | true => rw [List.filter_cons_of_pos hpx] at h; simp at h
    | false =>
      rw [List.filter_cons_of_neg (by simp [hpx])] at h
      simpa [hpx, List.filter_cons_of_neg, show ¬ p x = true by simp [hpx]]
        using ih h

theorem filter_update_of_filter_singleton {α : Type} {p : α → Bool}
    {f : α → α} {a : α} (hpf : ∀ x, p (f x) = p x) :
    ∀ {l : List α}, l.filter p = [a] →
      (l.map (fun x => if p x then f x else x)).filter p = [f a] := by
  intro l
  induction l with
  | nil => intro h; simp at h
  | cons x xs ih =>
    intro h
    cases hpx : p x with
    | true =>
      rw [List.filter_cons_of_pos hpx] at h
      injection h with h1 h2
      subst h1
      have hfx : p (f x) = true := by rw [hpf]; exact hpx
      rw [List.map_cons, if_pos hpx, List.filter_cons_of_pos hfx,
          filter_update_of_filter_nil h2]
    | false =>
      rw [List.filter_cons_of_neg (by simp [hpx])] at h
      simp only [List.map_cons, hpx, if_neg (by simp : ¬ false = true)]
      rw [List.filter_cons_of_neg (by simp [hpx])]
      exact ih h

theorem map_update_of_filter_nil {α : Type} {p : α → Bool} {f : α → α} :
    ∀ {l : List α}, l.filter p = [] →
      l.map (fun x => if p x then f x else x) = l := by
  intro l
  induction l with
  | nil => intro h; simp
  | cons x xs ih =>
    intro h
    cases hpx : p x with
    | true => rw [List.filter_cons_of_pos hpx] at h; simp at h
    | false =>
      rw [List.filter_cons_of_neg (by simp [hpx])] at h
      simp only [List.map_cons, hpx, if_neg (by simp : ¬ false = true)]
      rw [ih h]

theorem foldl_add_eq_sum {α : Type} (g : α → Int) :
    ∀ (l : List α) (a : Int),
      l.foldl (fun acc x => acc + g x) a = a + (l.map g).sum := by
  intro l
  induction l with
  | nil => intro a; simp
  | cons x xs ih =>
    intro a
    simp only [List.foldl_cons, List.map_cons, List.sum_cons, ih]
    ring

theorem any_of_filter_any {α : Type} (p q : α → Bool) :
    ∀ (l : List α), (l.filter p).any q = l.any (fun x => p x && q x) := by
  intro l
  induction l with
  | nil => simp
  | cons x xs ih =>
    cases hpx : p x with
    | true =>
      rw [List.filter_cons_of_pos hpx]
      simp [hpx, ih]
    | false =>
      rw [List.filter_cons_of_neg (by simp [hpx])]
      simp [hpx, ih]

theorem find?_eq_none_of_any_eq_false {α : Type} {p : α → Bool}
    {l : List α} (h : l.any p = false) : l.find? p = none := by
  rw [List.find?_eq_none]
  intro a ha
  have := List.any_eq_false.mp h a ha
  simpa using this

theorem exists_find?_eq_some_of_any {α : Type} {p : α → Bool}
    {l : List α} (h : l.any p = true) : ∃ a, l.find? p = some a := by
  cases hf : l.find? p with
  | some a => exact ⟨a, rfl⟩
  | none =>
    rw [List.find?_eq_none] at hf
    obtain ⟨a, ha, hpa⟩ := List.any_eq_true.mp h
    exact absurd hpa (hf a ha)

/-! ### Characterizations of single storage operations and handler runs -/

open DatabaseStorage

theorem updateWithdrawalStatus_singleton (s : Store) (i : Nat)
    (upd : UpdateWithdrawalStatus) (pb : String) (now : Nat)
    (w : WithdrawalRequest)
    (hw : s.withdrawalRequests.filter (fun x => x.id == i) = [w]) :
    updateWithdrawalStatus s i upd pb now
      = (some (applyWithdrawalUpdate upd pb now w),
         { s with withdrawalRequests := s.withdrawalRequests.map (fun x =>
             if x.id == i then applyWithdrawalUpdate upd pb now x else x) }) := by
  unfold updateWithdrawalStatus
  rw [hw]
  rfl

theorem adminHandler_rejected_run (s : Store) (w : WithdrawalRequest)
    (u : User) (adminId : String) (notes : Option String)
    (ip ua : Option String) (now : Nat)
    (hw : s.withdrawalRequests.filter (fun x => x.id == w.id) = [w])
    (hu : s.users.filter (fun x => x.id == w.userId) = [u]) :
    adminUpdateWithdrawalHandler s adminId w.id ⟨.rejected, notes⟩ ip ua now
      = (.ok (applyWithdrawalUpdate ⟨.rejected, notes⟩ adminId now w),
         { s with
             withdrawalRequests := s.withdrawalRequests.map (fun x =>
               if x.id == w.id then
                 applyWithdrawalUpdate ⟨.rejected, notes⟩ adminId now x
               else x),
             transactions := s.transactions ++
               [{ id := s.nextTransactionId, userId := w.userId,
                  type := "withdrawal_rejected", amount := w.amount,
                  description := "Withdrawal rejected: " ++ toString w.amount
                    ++ " gems",
                  surveyId := none, withdrawalId := some w.id,
                  offerwallProvider := none, offerwallOfferId := none,
                  createdAt := now }],
             nextTransactionId := s.nextTransactionId + 1,
             users := s.users.map (fun x =>
               if x.id == w.userId then
                 { x with gemBalance := u.gemBalance + w.amount,
                          updatedAt := now }
               else x),
             securityLogs := s.securityLogs ++
               [{ id := s.nextLogId, userId := some adminId,
                  action := "withdrawal_rejected",
                  details := "withdrawalId, amount, userId, notes",
                  ipAddress := ip, userAgent := ua, createdAt := now }],
             nextLogId := s.nextLogId + 1 }) := by
  have h1 := updateWithdrawalStatus_singleton s w.id ⟨.rejected, notes⟩
    adminId now w hw
  have hfu : s.users.find? (fun x => x.id == w.userId) = some u :=
    filter_singleton_find? hu
  unfold adminUpdateWithdrawalHandler
  rw [h1]
  dsimp only [createTransaction, getUser, updateUserGemBalance,
    createSecurityLog, applyWithdrawalUpdate, Decision.statusString]
  rw [hfu]
  rfl

theorem adminHandler_approved_run (s : Store) (w : WithdrawalRequest)
    (adminId : String) (notes : Option String) (ip ua : Option String)
    (now : Nat)
    (hw : s.withdrawalRequests.filter (fun x => x.id == w.id) = [w]) :
    adminUpdateWithdrawalHandler s adminId w.id ⟨.approved, notes⟩ ip ua now
      = (.ok (applyWithdrawalUpdate ⟨.approved, notes⟩ adminId now w),
         { s with
             withdrawalRequests := s.withdrawalRequests.map (fun x =>
               if x.id == w.id then
                 applyWithdrawalUpdate ⟨.approved, notes⟩ adminId now x
               else x),
             transactions := s.transactions ++
               [{ id := s.nextTransactionId, userId := w.userId,
                  type := "withdrawal_approved", amount := 0,
                  description := "Withdrawal approved: " ++ toString w.amount
                    ++ " gems",
                  surveyId := none, withdrawalId := some w.id,
                  offerwallProvider := none, offerwallOfferId := none,
                  createdAt := now }],
             nextTransactionId := s.nextTransactionId + 1,
             securityLogs := s.securityLogs ++
               [{ id := s.nextLogId, userId := some adminId,
                  action := "withdrawal_approved",
                  details := "withdrawalId, amount, userId, notes",
                  ipAddress := ip, userAgent := ua, createdAt := now }],
             nextLogId := s.nextLogId + 1 }) := by
  have h1 := updateWithdrawalStatus_singleton s w.id ⟨.approved, notes⟩
    adminId now w hw
  unfold adminUpdateWithdrawalHandler
  rw [h1]
  rfl

/-! ### Claim theorems -/

/-- C1: for every pending withdrawal request of amount A belonging to
user U with balance B, the admin adjudication handler with decision
rejected sets the status of the request to rejected and the balance of U to
B + A, and with decision approved sets the status to approved and
leaves the balance of U unchanged; in both cases exactly one new Transaction
is appended, of amount 0 for approval and of amount A (positive) for
rejection. -/
theorem adminAdjudication_pending_effects (s : Store)
    (w : WithdrawalRequest) (u : User) (adminId : String)
    (notes : Option String) (ip ua : Option String) (now : Nat)
    (hw : s.withdrawalRequests.filter (fun x => x.id == w.id) = [w])
    (hu : s.users.filter (fun x => x.id == w.userId) = [u])
    (hpend : w.status = "pending") (hpos : 0 < w.amount) :
    ((adminUpdateWithdrawalHandler s adminId w.id ⟨.rejected, notes⟩ ip ua
        now).2.withdrawalRequests.filter (fun x => x.id == w.id)
      = [applyWithdrawalUpdate ⟨.rejected, notes⟩ adminId now w]
     ∧ (applyWithdrawalUpdate ⟨.rejected, notes⟩ adminId now w).status
        = "rejected"
     ∧ (adminUpdateWithdrawalHandler s adminId w.id ⟨.rejected, notes⟩ ip ua
          now).2.users.filter (fun x => x.id == w.userId)
        = [{ u with gemBalance := u.gemBalance + w.amount, updatedAt := now }]
     ∧ ∃ t, (adminUpdateWithdrawalHandler s adminId w.id ⟨.rejected, notes⟩
          ip ua now).2.transactions = s.transactions ++ [t]
        ∧ t.amount = w.amount ∧ 0 < t.amount ∧ t.type = "withdrawal_rejected")
    ∧
    ((adminUpdateWithdrawalHandler s adminId w.id ⟨.approved, notes⟩ ip ua
        now).2.withdrawalRequests.filter (fun x => x.id == w.id)
      = [applyWithdrawalUpdate ⟨.approved, notes⟩ adminId now w]
     ∧ (applyWithdrawalUpdate ⟨.approved, notes⟩ adminId now w).status
        = "approved"
     ∧ (adminUpdateWithdrawalHandler s adminId w.id ⟨.approved, notes⟩ ip ua
          now).2.users = s.users
     ∧ ∃ t, (adminUpdateWithdrawalHandler s adminId w.id ⟨.approved, notes⟩
          ip ua now).2.transactions = s.transactions ++ [t]
        ∧ t.amount = 0 ∧ t.type = "withdrawal_approved") := by
  constructor
  · rw [adminHandler_rejected_run s w u adminId notes ip ua now hw hu]
    refine ⟨?_, rfl, ?_, ?_⟩
    · exact filter_update_of_filter_singleton
        (p := fun x => x.id == w.id)
        (f := applyWithdrawalUpdate ⟨.rejected, notes⟩ adminId now)
        (fun x => rfl) hw
    · exact filter_update_of_filter_singleton
        (p := fun x => x.id == w.userId)
        (f := fun x : User =>
          { x with gemBalance := u.gemBalance + w.amount, updatedAt := now })
        (fun x => rfl) hu
    · exact ⟨_, rfl, rfl, hpos, rfl⟩
  · rw [adminHandler_approved_run s w adminId notes ip ua now hw]
    refine ⟨?_, rfl, rfl, ?_⟩
    · exact filter_update_of_filter_singleton
        (p := fun x => x.id == w.id)
        (f := applyWithdrawalUpdate ⟨.approved, notes⟩ adminId now)
        (fun x => rfl) hw
    · exact ⟨_, rfl, rfl, rfl⟩

/-- C1 witness: the pending 200-gem withdrawal of the example user
(balance 500) adjudicated at time 7: on rejection the balance becomes
700. -/
theorem adminAdjudication_pending_effects_witness :
    (0 : Int) < exampleWithdrawal.amount
    ∧ exampleWithdrawal.status = "pending"
    ∧ (adminUpdateWithdrawalHandler
        { exampleStore with withdrawalRequests := [exampleWithdrawal] }
        "admin" exampleWithdrawal.id ⟨.rejected, none⟩ none none
        7).2.users.filter (fun x => x.id == exampleWithdrawal.userId)
      = [{ exampleUser with
             gemBalance := exampleUser.gemBalance + exampleWithdrawal.amount,
             updatedAt := 7 }] :=
  ⟨by decide, by decide,
   (adminAdjudication_pending_effects
      { exampleStore with withdrawalRequests := [exampleWithdrawal] }
      exampleWithdrawal exampleUser "admin" none none none 7
      (by decide) (by decide) (by decide) (by decide)).1.2.2.1⟩

/-- C2 counterexample: an already-approved withdrawal re-submitted to
the adjudication handler with decision rejected is transitioned again:
its status flips to rejected and the user is credited 200 gems (balance
500 to 700), so the handler does not leave an already-adjudicated
withdrawal unchanged. -/
theorem adminAdjudication_terminal_state_change :
    ((adminUpdateWithdrawalHandler
        { exampleStore with withdrawalRequests :=
            [{ exampleWithdrawal with
                status := "approved", processedAt := some 2,
                processedBy := some "admin" }] }
        "admin" 1 ⟨.rejected, none⟩ none none 5).2.withdrawalRequests.map
          (fun x => x.status)) = ["rejected"]
    ∧ ((adminUpdateWithdrawalHandler
        { exampleStore with withdrawalRequests :=
            [{ exampleWithdrawal with
                status := "approved", processedAt := some 2,
                processedBy := some "admin" }] }
        "admin" 1 ⟨.rejected, none⟩ none none 5).2.users.map
          (fun x => x.gemBalance)) = [700]
    ∧ (adminUpdateWithdrawalHandler
        { exampleStore with withdrawalRequests :=
            [{ exampleWithdrawal with
                status := "approved", processedAt := some 2,
                processedBy := some "admin" }] }
        "admin" 1 ⟨.rejected, none⟩ none none 5).2
      ≠ { exampleStore with withdrawalRequests :=
            [{ exampleWithdrawal with
                status := "approved", processedAt := some 2,
                processedBy := some "admin" }] } := by
  decide

/-- C2 amended: pending is not an enforced non-terminal status — the
adjudication handler never inspects the current status, so applying it
to an already-approved or already-rejected withdrawal performs the same
mutation as on a pending one: the status is overwritten to the new
decision, the processing fields are rewritten, and exactly one more
transaction is appended. -/
theorem adminAdjudication_no_terminality (s : Store)
    (w : WithdrawalRequest) (u : User) (adminId : String)
    (body : UpdateWithdrawalStatus) (ip ua : Option String) (now : Nat)
    (hw : s.withdrawalRequests.filter (fun x => x.id == w.id) = [w])
    (hu : s.users.filter (fun x => x.id == w.userId) = [u])
    (hterm : w.status = "approved" ∨ w.status = "rejected") :
    (adminUpdateWithdrawalHandler s adminId w.id body ip ua now).1
      = .ok (applyWithdrawalUpdate body adminId now w)
    ∧ (adminUpdateWithdrawalHandler s adminId w.id body ip ua
        now).2.withdrawalRequests.filter (fun x => x.id == w.id)
      = [applyWithdrawalUpdate body adminId now w]
    ∧ (applyWithdrawalUpdate body adminId now w).status
      = body.status.statusString
    ∧ (adminUpdateWithdrawalHandler s adminId w.id body ip ua
        now).2.transactions.length = s.transactions.length + 1 := by
  obtain ⟨d, notes⟩ := body
  cases d with
  | approved =>
    rw [adminHandler_approved_run s w adminId notes ip ua now hw]
    refine ⟨rfl, ?_, rfl, ?_⟩
    · exact filter_update_of_filter_singleton
        (p := fun x => x.id == w.id)
        (f := applyWithdrawalUpdate ⟨.approved, notes⟩ adminId now)
        (fun x => rfl) hw
    · simp
  | rejected =>
    rw [adminHandler_rejected_run s w u adminId notes ip ua now hw hu]
    refine ⟨rfl, ?_, rfl, ?_⟩
    · exact filter_update_of_filter_singleton
        (p := fun x => x.id == w.id)
        (f := applyWithdrawalUpdate ⟨.rejected, notes⟩ adminId now)
        (fun x => rfl) hw
    · simp

/-- C2 amended witness: re-approving an already-rejected withdrawal at
time 9 still rewrites it and appends a transaction. -/
theorem adminAdjudication_no_terminality_witness :
    ({ exampleWithdrawal with status := "rejected" }.status = "approved"
      ∨ { exampleWithdrawal with status := "rejected" }.status = "rejected")
    ∧ (adminUpdateWithdrawalHandler
        { exampleStore with withdrawalRequests :=
            [{ exampleWithdrawal with status := "rejected" }] }
        "admin" 1 ⟨.approved, some "ok"⟩ none none 9).1
      = .ok (applyWithdrawalUpdate ⟨.approved, some "ok"⟩ "admin" 9
          { exampleWithdrawal with status := "rejected" }) :=
  ⟨Or.inr (by decide),
   (adminAdjudication_no_terminality
      { exampleStore with withdrawalRequests :=
          [{ exampleWithdrawal with status := "rejected" }] }
      { exampleWithdrawal with status := "rejected" } exampleUser "admin"
      ⟨.approved, some "ok"⟩ none none 9 (by decide) (by decide)
      (Or.inr (by decide))).1⟩

/-- C7 counterexample: adjudicating a withdrawal id that matches no row
does leave the store unchanged, but the response is the catch-all
internal error with HTTP status 500, not the not-found error 404 the
claim requires: the source dereferences the absent row and the thrown
error lands in the catch block. -/
theorem adminAdjudication_missing_id_counterexample :
    adminUpdateWithdrawalHandler exampleStore "admin" 7 ⟨.approved, none⟩
        none none 3
      = (.error (.internal "Failed to update withdrawal"), exampleStore)
    ∧ (HandlerError.internal "Failed to update withdrawal").statusCode = 500
    ∧ (HandlerError.internal "Failed to update withdrawal").statusCode ≠ 404 := by
  refine ⟨rfl, rfl, by decide⟩

/-- C7 amended: for a withdrawal id matching no row, the adjudication
handler answers with the unclassified internal error (HTTP 500) and
leaves the whole store unchanged. -/
theorem adminAdjudication_missing_id_internal_error (s : Store)
    (adminId : String) (i : Nat) (body : UpdateWithdrawalStatus)
    (ip ua : Option String) (now : Nat)
    (h : s.withdrawalRequests.filter (fun x => x.id == i) = []) :
    adminUpdateWithdrawalHandler s adminId i body ip ua now
      = (.error (.internal "Failed to update withdrawal"), s) := by
  unfold adminUpdateWithdrawalHandler updateWithdrawalStatus
  rw [h]
  have hmap : s.withdrawalRequests.map (fun x =>
      if x.id == i then applyWithdrawalUpdate body adminId now x else x)
      = s.withdrawalRequests :=
    map_update_of_filter_nil h
  dsimp only
  rw [hmap]
  rfl

/-- C7 amended witness: adjudicating the absent id 9 on the example
store errors with the internal message and changes nothing. -/
theorem adminAdjudication_missing_id_internal_error_witness :
    exampleStore.withdrawalRequests.filter (fun x => x.id == 9) = []
    ∧ adminUpdateWithdrawalHandler exampleStore "a2" 9 ⟨.rejected, some "no"⟩
        none none 4
      = (.error (.internal "Failed to update withdrawal"), exampleStore) :=
  ⟨by decide,
   adminAdjudication_missing_id_internal_error exampleStore "a2" 9
     ⟨.rejected, some "no"⟩ none none 4 (by decide)⟩

/-- The full effect of a successful survey completion: the response row,
the balance overwrite, the participant-count bump, the reward
transaction and the security log, exactly as the handler sequences
them. -/
theorem completeSurvey_success_run (s : Store) (u : User) (sv : Survey)
    (responses : String) (ip ua : Option String) (now : Nat)
    (hu : s.users.filter (fun x => x.id == u.id) = [u])
    (hsv : s.surveys.filter (fun x => x.id == sv.id) = [sv])
    (hnew : s.surveyResponses.any
      (fun r => r.userId == u.id && r.surveyId == sv.id) = false) :
    completeSurveyHandler s u.id sv.id responses ip ua now
      = (.ok ({ id := s.nextResponseId, userId := u.id, surveyId := sv.id,
                responses := responses, completedAt := now,
                gemAwarded := sv.reward }, sv.reward),
         { s with
             surveyResponses := s.surveyResponses ++
               [{ id := s.nextResponseId, userId := u.id, surveyId := sv.id,
                  responses := responses, completedAt := now,
                  gemAwarded := sv.reward }],
             nextResponseId := s.nextResponseId + 1,
             users := s.users.map (fun x =>
               if x.id == u.id then
                 { x with gemBalance := u.gemBalance + sv.reward,
                          updatedAt := now }
               else x),
             surveys := s.surveys.map (fun x =>
               if x.id == sv.id then
                 { x with participantCount := sv.participantCount + 1 }
               else x),
             transactions := s.transactions ++
               [{ id := s.nextTransactionId, userId := u.id,
                  type := "survey_reward", amount := sv.reward,
                  description := "Survey completed: " ++ sv.title,
                  surveyId := some sv.id, withdrawalId := none,
                  offerwallProvider := none, offerwallOfferId := none,
                  createdAt := now }],
             nextTransactionId := s.nextTransactionId + 1,
             securityLogs := s.securityLogs ++
               [{ id := s.nextLogId, userId := some u.id,
                  action := "survey_completed", details := "surveyId, reward",
                  ipAddress := ip, userAgent := ua, createdAt := now }],
             nextLogId := s.nextLogId + 1 }) := by
  have hfsv : s.surveys.find? (fun x => x.id == sv.id) = some sv :=
    filter_singleton_find? hsv
  have hfu : s.users.find? (fun x => x.id == u.id) = some u :=
    filter_singleton_find? hu
  simp only [completeSurveyHandler, createSurveyResponse, getSurvey, getUser,
    getUserSurveyResponses, updateUserGemBalance, createTransaction,
    createSecurityLog, any_of_filter_any, hnew, hfsv, hfu]
  rfl

/-- C3: for every user U and existing survey S that U has not responded
to, a successful survey completion appends exactly one Transaction of
type survey_reward whose amount is the reward of S, increases the balance of U by
exactly that reward, and increments the participantCount of S by exactly 1
(and records exactly one new SurveyResponse). -/
theorem surveyCompletion_success_effects (s : Store) (u : User)
    (sv : Survey) (responses : String) (ip ua : Option String) (now : Nat)
    (hu : s.users.filter (fun x => x.id == u.id) = [u])
    (hsv : s.surveys.filter (fun x => x.id == sv.id) = [sv])
    (hnew : s.surveyResponses.any
      (fun r => r.userId == u.id && r.surveyId == sv.id) = false) :
    (∃ t, (completeSurveyHandler s u.id sv.id responses ip ua
        now).2.transactions = s.transactions ++ [t]
      ∧ t.type = "survey_reward" ∧ t.amount = sv.reward ∧ t.userId = u.id)
    ∧ (completeSurveyHandler s u.id sv.id responses ip ua
        now).2.users.filter (fun x => x.id == u.id)
      = [{ u with gemBalance := u.gemBalance + sv.reward, updatedAt := now }]
    ∧ (completeSurveyHandler s u.id sv.id responses ip ua
        now).2.surveys.filter (fun x => x.id == sv.id)
      = [{ sv with participantCount := sv.participantCount + 1 }]
    ∧ ∃ r, (completeSurveyHandler s u.id sv.id responses ip ua
        now).2.surveyResponses = s.surveyResponses ++ [r]
      ∧ r.gemAwarded = sv.reward
      ∧ (completeSurveyHandler s u.id sv.id responses ip ua now).1
          = .ok (r, sv.reward) := by
  rw [completeSurvey_success_run s u sv responses ip ua now hu hsv hnew]
  refine ⟨⟨_, rfl, rfl, rfl, rfl⟩, ?_, ?_, ⟨_, rfl, rfl, rfl⟩⟩
  · exact filter_update_of_filter_singleton
      (p := fun x => x.id == u.id)
      (f := fun x : User =>
        { x with gemBalance := u.gemBalance + sv.reward, updatedAt := now })
      (fun x => rfl) hu
  · exact filter_update_of_filter_singleton
      (p := fun x => x.id == sv.id)
      (f := fun x : Survey =>
        { x with participantCount := sv.participantCount + 1 })
      (fun x => rfl) hsv

/-- C3 witness: the example user completes the example survey (reward
50) at time 4 and their balance rises from 500 to 550. -/
theorem surveyCompletion_success_effects_witness :
    exampleStore.surveyResponses.any
      (fun r => r.userId == exampleUser.id && r.surveyId == exampleSurvey.id)
      = false
    ∧ (completeSurveyHandler exampleStore exampleUser.id exampleSurvey.id
        "answers" none none 4).2.users.filter
          (fun x => x.id == exampleUser.id)
      = [{ exampleUser with
             gemBalance := exampleUser.gemBalance + exampleSurvey.reward,
             updatedAt := 4 }] :=
  ⟨by decide,
   (surveyCompletion_success_effects exampleStore exampleUser exampleSurvey
      "answers" none none 4 (by decide) (by decide) (by decide)).2.1⟩

/-- C6: a second completion attempt of a survey the user already has a
SurveyResponse for is answered with the business-rule client error 400
and leaves the store — transactions, responses, balances, participant
counts — exactly unchanged. -/
theorem surveyCompletion_duplicate_rejected (s : Store) (userId : String)
    (sv : Survey) (responses : String) (ip ua : Option String) (now : Nat)
    (hsv : getSurvey s sv.id = some sv)
    (hdup : s.surveyResponses.any
      (fun r => r.userId == userId && r.surveyId == sv.id) = true) :
    completeSurveyHandler s userId sv.id responses ip ua now
      = (.error (.badRequest "Survey already completed"), s)
    ∧ (HandlerError.badRequest "Survey already completed").statusCode
        = 400 := by
  refine ⟨?_, rfl⟩
  unfold completeSurveyHandler
  rw [hsv]
  simp only [getUserSurveyResponses, any_of_filter_any, hdup]
  rfl

/-- C6 witness: the example user re-submits survey 1 which they already
completed; the handler answers 400 and the store is untouched. -/
theorem surveyCompletion_duplicate_rejected_witness :
    ({ exampleStore with surveyResponses :=
         [{ id := 0, userId := "u1", surveyId := 1, responses := "r",
            completedAt := 0, gemAwarded := 50 }] } : Store).surveyResponses.any
      (fun r => r.userId == "u1" && r.surveyId == exampleSurvey.id) = true
    ∧ completeSurveyHandler
        { exampleStore with surveyResponses :=
            [{ id := 0, userId := "u1", surveyId := 1, responses := "r",
               completedAt := 0, gemAwarded := 50 }] }
        "u1" exampleSurvey.id "again" none none 6
      = (.error (.badRequest "Survey already completed"),
         { exampleStore with surveyResponses :=
             [{ id := 0, userId := "u1", surveyId := 1, responses := "r",
                completedAt := 0, gemAwarded := 50 }] }) :=
  ⟨by decide,
   (surveyCompletion_duplicate_rejected
      { exampleStore with surveyResponses :=
          [{ id := 0, userId := "u1", surveyId := 1, responses := "r",
             completedAt := 0, gemAwarded := 50 }] }
      "u1" exampleSurvey "again" none none 6 (by decide) (by decide)).1⟩

/-- The full effect of a successful withdrawal request: the pending row,
the negative ledger entry, the balance overwrite and the security log,
exactly as the handler sequences them. -/
theorem requestWithdrawal_success_run (s : Store) (u : User)
    (body : InsertWithdrawalRequest) (ip ua : Option String) (now : Nat)
    (hnp : s.withdrawalRequests.any
      (fun w => w.userId == u.id && w.status == "pending") = false)
    (hbal : ¬ u.gemBalance < body.amount) (hmin : ¬ body.amount < 100) :
    requestWithdrawalHandler s u body ip ua now
      = (.ok { id := s.nextWithdrawalId, userId := u.id,
               amount := body.amount, walletAddress := body.walletAddress,
               status := "pending", adminNotes := none, requestedAt := now,
               processedAt := none, processedBy := none },
         { s with
             withdrawalRequests := s.withdrawalRequests ++
               [{ id := s.nextWithdrawalId, userId := u.id,
                  amount := body.amount,
                  walletAddress := body.walletAddress, status := "pending",
                  adminNotes := none, requestedAt := now,
                  processedAt := none, processedBy := none }],
             nextWithdrawalId := s.nextWithdrawalId + 1,
             transactions := s.transactions ++
               [{ id := s.nextTransactionId, userId := u.id,
                  type := "withdrawal_request", amount := -body.amount,
                  description := "Withdrawal requested: "
                    ++ toString body.amount ++ " gems",
                  surveyId := none, withdrawalId := some s.nextWithdrawalId,
                  offerwallProvider := none, offerwallOfferId := none,
                  createdAt := now }],
             nextTransactionId := s.nextTransactionId + 1,
             users := s.users.map (fun x =>
               if x.id == u.id then
                 { x with gemBalance := u.gemBalance - body.amount,
                          updatedAt := now }
               else x),
             securityLogs := s.securityLogs ++
               [{ id := s.nextLogId, userId := some u.id,
                  action := "withdrawal_requested",
                  details := "amount, walletAddress", ipAddress := ip,
                  userAgent := ua, createdAt := now }],
             nextLogId := s.nextLogId + 1 }) := by
  have hfnp : s.withdrawalRequests.find?
      (fun w => w.userId == u.id && w.status == "pending") = none :=
    find?_eq_none_of_any_eq_false hnp
  simp only [requestWithdrawalHandler, getUserPendingWithdrawal, hfnp,
    createWithdrawalRequest, createTransaction, updateUserGemBalance,
    createSecurityLog, hbal, hmin]
  rfl

/-- C4: a successful withdrawal request of amount N inserts exactly one
pending WithdrawalRequest row of amount N, appends exactly one
Transaction of type withdrawal_request with the negative amount -N, and
overwrites the stored balance of the user to balance - N. -/
theorem withdrawalRequest_success_effects (s : Store) (u : User)
    (body : InsertWithdrawalRequest) (ip ua : Option String) (now : Nat)
    (hu : s.users.filter (fun x => x.id == u.id) = [u])
    (hnp : s.withdrawalRequests.any
      (fun w => w.userId == u.id && w.status == "pending") = false)
    (hbal : body.amount ≤ u.gemBalance) (hmin : 100 ≤ body.amount) :
    (∃ wr, (requestWithdrawalHandler s u body ip ua now).1 = .ok wr
       ∧ wr.status = "pending" ∧ wr.amount = body.amount ∧ wr.userId = u.id
       ∧ (requestWithdrawalHandler s u body ip ua now).2.withdrawalRequests
           = s.withdrawalRequests ++ [wr])
    ∧ (∃ t, (requestWithdrawalHandler s u body ip ua now).2.transactions
          = s.transactions ++ [t]
       ∧ t.type = "withdrawal_request" ∧ t.amount = -body.amount
       ∧ t.amount < 0)
    ∧ (requestWithdrawalHandler s u body ip ua now).2.users.filter
        (fun x => x.id == u.id)
      = [{ u with gemBalance := u.gemBalance - body.amount,
                  updatedAt := now }] := by
  rw [requestWithdrawal_success_run s u body ip ua now hnp
    (not_lt.mpr hbal) (not_lt.mpr hmin)]
  refine ⟨⟨_, rfl, rfl, rfl, rfl, rfl⟩, ⟨_, rfl, rfl, rfl, ?_⟩, ?_⟩
  · show -body.amount < 0
    omega
  · exact filter_update_of_filter_singleton
      (p := fun x => x.id == u.id)
      (f := fun x : User =>
        { x with gemBalance := u.gemBalance - body.amount, updatedAt := now })
      (fun x => rfl) hu

/-- C4 witness: the example user (balance 500) withdraws 150 at time 3;
the pending row is created and the balance becomes 350. -/
theorem withdrawalRequest_success_effects_witness :
    ((100 : Int) ≤ 150 ∧ (150 : Int) ≤ exampleUser.gemBalance)
    ∧ (requestWithdrawalHandler exampleStore exampleUser
        { amount := 150, walletAddress := "addr9" } none none 3).2.users.filter
          (fun x => x.id == exampleUser.id)
      = [{ exampleUser with
             gemBalance := exampleUser.gemBalance - 150, updatedAt := 3 }] :=
  ⟨⟨by decide, by decide⟩,
   (withdrawalRequest_success_effects exampleStore exampleUser
      { amount := 150, walletAddress := "addr9" } none none 3
      (by decide) (by decide) (by decide) (by decide)).2.2⟩

/-- C5: the withdrawal-request handler rejects with a 400 client error
whenever the user already has a pending withdrawal, or the amount
exceeds the balance, or the amount is below the fixed minimum of 100 —
and in every such case the store is returned exactly unchanged: no
row, no transaction, no balance change. -/
theorem withdrawalRequest_precheck_rejections (s : Store) (u : User)
    (body : InsertWithdrawalRequest) (ip ua : Option String) (now : Nat)
    (h : s.withdrawalRequests.any
        (fun w => w.userId == u.id && w.status == "pending") = true
      ∨ u.gemBalance < body.amount ∨ body.amount < 100) :
    ∃ msg, requestWithdrawalHandler s u body ip ua now
        = (.error (.badRequest msg), s)
      ∧ (HandlerError.badRequest msg).statusCode = 400 := by
  unfold requestWithdrawalHandler getUserPendingWithdrawal
  cases hf : s.withdrawalRequests.find?
      (fun w => w.userId == u.id && w.status == "pending") with
  | some w => exact ⟨"You already have a pending withdrawal request", rfl, rfl⟩
  | none =>
    rcases h with h1 | h2 | h3
    · obtain ⟨a, ha⟩ := exists_find?_eq_some_of_any h1
      rw [hf] at ha
      exact absurd ha (by simp)
    · exact ⟨"Insufficient gem balance", by rw [if_pos h2], rfl⟩
    · by_cases hb : u.gemBalance < body.amount
      · exact ⟨"Insufficient gem balance", by rw [if_pos hb], rfl⟩
      · exact ⟨"Minimum withdrawal amount is 100 gems",
          by rw [if_neg hb, if_pos h3], rfl⟩

/-- C5 witness: a 50-gem request (below the 100 minimum) by the example
user is rejected and the store is unchanged. -/
theorem withdrawalRequest_precheck_rejections_witness :
    ((50 : Int) < 100)
    ∧ ∃ msg, requestWithdrawalHandler exampleStore exampleUser
        { amount := 50, walletAddress := "addr9" } none none 3
        = (.error (.badRequest msg), exampleStore)
      ∧ (HandlerError.badRequest msg).statusCode = 400 :=
  ⟨by decide,
   withdrawalRequest_precheck_rejections exampleStore exampleUser
     { amount := 50, walletAddress := "addr9" } none none 3
     (Or.inr (Or.inr (by decide)))⟩

theorem foldl_amount (l : List WithdrawalRequest) :
    l.foldl (fun sum w => sum + w.amount) 0
      = (l.map (fun w => w.amount)).sum := by
  have h := foldl_add_eq_sum (fun w : WithdrawalRequest => w.amount) l 0
  simpa using h

/-- C8: getUserStats returns the total user count, the count of pending
withdrawals, and totalPayouts equal to the sum of the amounts of all
approved withdrawal requests scaled by the fixed conversion factor of
5 cents (0.05 dollars) per gem. -/
theorem getUserStats_spec (s : Store) :
    getUserStats s
      = { totalUsers := s.users.length,
          pendingWithdrawals := (s.withdrawalRequests.filter
            (fun w => w.status == "pending")).length,
          totalPayoutsCents := 5 * ((s.withdrawalRequests.filter
            (fun w => w.status == "approved")).map
              (fun w => w.amount)).sum } := by
  unfold getUserStats
  dsimp only
  rw [foldl_amount]
  congr 1
  ring

theorem forall₂_map_self {α : Type} (R : α → α → Prop) (g : α → α)
    (h : ∀ x, R x (g x)) :
    ∀ (l : List α), List.Forall₂ R l (l.map g) := by
  intro l
  induction l with
  | nil => exact List.Forall₂.nil
  | cons x xs ih => exact List.Forall₂.cons (h x) ih

/-- C9 counterexample: identity fields with the fresh id u2 but the
email already held by the existing user u1 do not insert a user: the
insert trips the unique constraint on users.email, which the
ON CONFLICT clause on the id column does not arbitrate, so upsertUser
raises and the store is unchanged. -/
theorem upsertUser_email_conflict :
    exampleStore.users.any (fun x => x.id == "u2") = false
    ∧ upsertUser exampleStore
        { id := "u2", email := "u1@example.com", firstName := none,
          lastName := none, profileImageUrl := none } 3
      = (.error
          "duplicate key value violates unique constraint users_email_unique",
         exampleStore)
    ∧ (upsertUser exampleStore
        { id := "u2", email := "u1@example.com", firstName := none,
          lastName := none, profileImageUrl := none } 3).2.users.length
      = 1 :=
  ⟨by decide, rfl, by decide⟩

/-- C9 amended: for identity fields whose id matches no existing user
and whose email matches the email of no existing user, upsertUser inserts
exactly one new User whose isAdmin flag is true iff the supplied email
equals the hardcoded operator address, and returns it. -/
theorem upsertUser_fresh_insert (s : Store) (d : UpsertUser) (now : Nat)
    (hid : s.users.any (fun x => x.id == d.id) = false)
    (hemail : s.users.any (fun x => x.email == d.email) = false) :
    upsertUser s d now
      = (.ok { id := d.id, email := d.email, firstName := d.firstName,
               lastName := d.lastName,
               profileImageUrl := d.profileImageUrl, gemBalance := 0,
               isVerified := false, verificationCode := none,
               status := "active", isAdmin := d.email == operatorEmail,
               createdAt := now, updatedAt := now },
         { s with users := s.users ++
             [{ id := d.id, email := d.email, firstName := d.firstName,
                lastName := d.lastName,
                profileImageUrl := d.profileImageUrl, gemBalance := 0,
                isVerified := false, verificationCode := none,
                status := "active", isAdmin := d.email == operatorEmail,
                createdAt := now, updatedAt := now }] })
    ∧ ((d.email == operatorEmail) = true ↔ d.email = operatorEmail) := by
  constructor
  · unfold upsertUser
    rw [hid, hemail]
    rfl
  · simp

/-- C9 amended witness: inserting the operator address itself under the
fresh id u9 yields a user flagged as admin. -/
theorem upsertUser_fresh_insert_witness :
    exampleStore.users.any (fun x => x.id == "u9") = false
    ∧ exampleStore.users.any
        (fun x => x.email == "5minutessurvey@gmail.com") = false
    ∧ upsertUser exampleStore
        { id := "u9", email := "5minutessurvey@gmail.com",
          firstName := none, lastName := none, profileImageUrl := none } 8
      = (.ok { id := "u9", email := "5minutessurvey@gmail.com",
               firstName := none, lastName := none,
               profileImageUrl := none, gemBalance := 0,
               isVerified := false, verificationCode := none,
               status := "active", isAdmin := true, createdAt := 8,
               updatedAt := 8 },
         { exampleStore with users := exampleStore.users ++
             [{ id := "u9", email := "5minutessurvey@gmail.com",
                firstName := none, lastName := none,
                profileImageUrl := none, gemBalance := 0,
                isVerified := false, verificationCode := none,
                status := "active", isAdmin := true, createdAt := 8,
                updatedAt := 8 }] }) :=
  ⟨by decide, by decide,
   (upsertUser_fresh_insert exampleStore
      { id := "u9", email := "5minutessurvey@gmail.com", firstName := none,
        lastName := none, profileImageUrl := none } 8
      (by decide) (by decide)).1⟩

/-- C10: when the id matches an existing user, upsertUser either raises
on a duplicate email (store unchanged) or rewrites exactly the identity
fields (email, firstName, lastName, profileImageUrl) and updatedAt of
the matched row; in every case each stored user keeps its gemBalance,
isAdmin, status, isVerified, verificationCode and id, so a returning
user keeps balance and admin flag across every sign-in. -/
theorem upsertUser_existing_frame (s : Store) (d : UpsertUser) (now : Nat)
    (hid : s.users.any (fun x => x.id == d.id) = true) :
    ((upsertUser s d now).2.users = s.users
      ∨ (upsertUser s d now).2.users = s.users.map (fun x =>
          if x.id == d.id then
            { x with email := d.email, firstName := d.firstName,
                     lastName := d.lastName,
                     profileImageUrl := d.profileImageUrl,
                     updatedAt := now }
          else x))
    ∧ List.Forall₂ (fun x y : User =>
        y.gemBalance = x.gemBalance ∧ y.isAdmin = x.isAdmin
        ∧ y.status = x.status ∧ y.isVerified = x.isVerified
        ∧ y.verificationCode = x.verificationCode ∧ y.id = x.id)
      s.users (upsertUser s d now).2.users := by
  have hsame : List.Forall₂ (fun x y : User =>
      y.gemBalance = x.gemBalance ∧ y.isAdmin = x.isAdmin
      ∧ y.status = x.status ∧ y.isVerified = x.isVerified
      ∧ y.verificationCode = x.verificationCode ∧ y.id = x.id)
      s.users s.users :=
    List.forall₂_same.mpr (fun x _ => ⟨rfl, rfl, rfl, rfl, rfl, rfl⟩)
  have hmap : List.Forall₂ (fun x y : User =>
      y.gemBalance = x.gemBalance ∧ y.isAdmin = x.isAdmin
      ∧ y.status = x.status ∧ y.isVerified = x.isVerified
      ∧ y.verificationCode = x.verificationCode ∧ y.id = x.id)
      s.users (s.users.map (fun x =>
        if x.id == d.id then
          { x with email := d.email, firstName := d.firstName,
                   lastName := d.lastName,
                   profileImageUrl := d.profileImageUrl, updatedAt := now }
        else x)) := by
    refine forall₂_map_self _ _ ?_ s.users
    intro x
    cases hx : x.id == d.id with
    | true => simp [hx]
    | false => simp [hx]
  unfold upsertUser
  rw [hid]
  cases hconf : s.users.any (fun u => u.id != d.id && u.email == d.email) with
  | true => exact ⟨Or.inl rfl, hsame⟩
  | false =>
    dsimp only
    cases hfind : (s.users.map (fun u =>
        if u.id == d.id then
          { u with email := d.email, firstName := d.firstName,
                   lastName := d.lastName,
                   profileImageUrl := d.profileImageUrl, updatedAt := now }
        else u)).find? (fun u => u.id == d.id) with
    | some u => exact ⟨Or.inr rfl, hmap⟩
    | none => exact ⟨Or.inr rfl, hmap⟩

/-- C10 witness: a returning sign-in for the example user with a new
display name keeps the 500-gem balance and the admin flag. -/
theorem upsertUser_existing_frame_witness :
    exampleStore.users.any (fun x => x.id == "u1") = true
    ∧ List.Forall₂ (fun x y : User =>
        y.gemBalance = x.gemBalance ∧ y.isAdmin = x.isAdmin
        ∧ y.status = x.status ∧ y.isVerified = x.isVerified
        ∧ y.verificationCode = x.verificationCode ∧ y.id = x.id)
      exampleStore.users
      (upsertUser exampleStore
        { id := "u1", email := "u1@example.com", firstName := some "Ada2",
          lastName := some "L", profileImageUrl := none } 11).2.users :=
  ⟨by decide,
   (upsertUser_existing_frame exampleStore
      { id := "u1", email := "u1@example.com", firstName := some "Ada2",
        lastName := some "L", profileImageUrl := none } 11 (by decide)).2⟩
